import Mathlib

/-!
Verification development for the job-queue and streaming-result subsystem of
the ai-chat-assistant backend (src/backend/app).  The definitions below are a
shallow embedding of:
  * app/models.py        (enums and pydantic models),
  * app/services/ai_service.py   (the event producer `generate_streaming_response`),
  * app/services/queue_service.py (jobs, result channels, the worker loop),
  * app/routes/chat.py   (the direct streaming route `stream_message_direct`).
Python dicts keyed by strings become association lists; `asyncio.Queue` per-job
result channels become `List (Option Chunk)` where `none` is the end-of-stream
marker that the worker literally puts as Python `None`; the mutable payload
dict is a reference into an explicit heap, mirroring Python object aliasing.
-/

namespace AiChat

/-! ### Enums (models.py, JobStatus from queue_service.py) -/

inductive JobStatus where
  | queued | processing | completed | failed | cancelled
deriving DecidableEq, Repr

inductive StreamEventType where
  | text | tool_call | citation | ui_component | error | done
deriving DecidableEq, Repr

inductive MessageRole where
  | user | assistant | system
deriving DecidableEq, Repr

inductive ToolCallType where
  | thinking | searching_documents | retrieving_pdf | analyzing_content | generating_response
deriving DecidableEq, Repr

/-- The `.value` string of a `ToolCallType` member (models.py lines 22-28). -/
def ToolCallType.val : ToolCallType → String
  | .thinking => "thinking"
  | .searching_documents => "searching_documents"
  | .retrieving_pdf => "retrieving_pdf"
  | .analyzing_content => "analyzing_content"
  | .generating_response => "generating_response"

/-! ### JSON values (what json.dumps serializes in _format_sse) -/

/-- JSON values appearing in event payloads.  A Python float such as the
citation confidence 0.9 is represented as `jfloat n d` meaning `n / d`. -/
inductive Json where
  | str : String → Json
  | num : Int → Json
  | boolean : Bool → Json
  | null : Json
  | arr : List Json → Json
  | obj : List (String × Json) → Json
deriving Repr

/-- A float literal in an event payload (e.g. confidence = 0.9 is `jfloat 9 10`). -/
def Json.jfloat (n d : Int) : Json := Json.arr [Json.num n, Json.num d]

/-- An event before SSE framing: its `StreamEventType` and its kind-specific
`data` dict (the arguments of `_format_sse` in ai_service.py line 293). -/
abbrev RawEvent := StreamEventType × List (String × Json)

/-- The `StreamEvent` pydantic model (models.py lines 145-149): exactly the
three keys `type`, `data`, `timestamp` that `_format_sse` serializes as
`data: <json>\n\n`.  Timestamps are modelled as an abstract counter: each
event gets `datetime.utcnow()` at creation, nondecreasing in emission order. -/
structure StreamEvent where
  type : StreamEventType
  data : List (String × Json)
  timestamp : Nat
deriving Repr

/-- Attach successive timestamps to produced raw events, mirroring the fact
that `_format_sse` stamps each event at yield time. -/
def withTimestamps (base : Nat) : List RawEvent → List StreamEvent
  | [] => []
  | e :: rest => ⟨e.1, e.2, base⟩ :: withTimestamps (base + 1) rest

/-! ### Items flowing through a job's result channel.

The producer pushes SSE-formatted strings (queue_service.py line 149); the
worker's failure handler pushes the raw Python dict
`{'type': 'error', 'error': str(e)}` (lines 114-117); the end signal is the
Python value `None` (line 125), modelled as `Option.none` around `Chunk`. -/

inductive Chunk where
  /-- An SSE-framed unit `data: <json of type, data, timestamp>\n\n`
  produced by `_format_sse`. -/
  | sse (e : StreamEvent)
  /-- The raw dict `\x7b'type': 'error', 'error': msg\x7d` pushed by the
  worker's except-branch — not SSE-framed, no `data`/`timestamp` shape. -/
  | errDict (msg : String)
deriving Repr

def Chunk.isSSE : Chunk → Bool
  | .sse _ => true
  | .errDict _ => false

/-! ### The producer: AIService.generate_streaming_response (ai_service.py 100-291)

External collaborators are inputs: whether `get_pdf_service()` succeeds,
which pdfs exist, what `_search_documents` returns, how the Groq streaming
call behaves, what `get_metadata(pdf_id).page_count` yields (`none` models
`get_metadata` returning Python `None`, which makes the `.page_count` access
raise `AttributeError` mid-stream), and the uuid4 default ids of the
`Citation` and `UIComponent` models. -/

structure PdfCtx where
  pdf_id : String
  filename : String
  title : String
  page : Nat
  text : String
deriving DecidableEq, Repr

/-- Behaviour of the Groq streaming call inside the producer's inner try
(ai_service.py lines 204-239): either it delivers content deltas and ends, or
it delivers some deltas and then raises with message `msg`. -/
inductive GroqRun where
  | ok (chunks : List String)
  | raisesAfter (chunks : List String) (msg : String)
deriving DecidableEq, Repr

structure ProducerEnv where
  /-- `get_pdf_service()` did not raise RuntimeError (lines 114-117). -/
  pdfServiceAvailable : Bool
  /-- pdf ids returned by `pdf_service.get_all_pdfs()` (gates the search branch). -/
  allPdfs : List String
  /-- the list returned by `_search_documents` (line 146). -/
  searchResults : List PdfCtx
  groq : GroqRun
  /-- `pdf_service.get_metadata(pdf_id)` mapped to its `page_count`;
  `none` models `get_metadata` returning `None` (line 257). -/
  pageCount : String → Option Nat
  /-- uuid4 default id of the i-th `Citation`. -/
  citId : Nat → String
  /-- uuid4 default id of the k-th emitted `UIComponent`. -/
  compId : Nat → String

/-- The `data` dict of a tool-call event (literal dicts in ai_service.py). -/
def toolCallData (t : ToolCallType) (status msg : String) : List (String × Json) :=
  [("type", Json.str t.val), ("status", Json.str status), ("message", Json.str msg)]

/-- Events of ai_service.py lines 124-135 (thinking in_progress / completed). -/
def thinkingEvs : List RawEvent :=
  [ (.tool_call, toolCallData .thinking "in_progress" "Analyzing your question..."),
    (.tool_call, toolCallData .thinking "completed" "Question analyzed") ]

/-- Whether the document-search branch is taken (line 138:
`if pdf_service and pdf_service.get_all_pdfs():`). -/
def searchActive (env : ProducerEnv) : Bool :=
  env.pdfServiceAvailable && !env.allPdfs.isEmpty

/-- `pdf_contexts` after lines 120 and 146. -/
def pdfContexts (env : ProducerEnv) : List PdfCtx :=
  if searchActive env then env.searchResults else []

/-- Tool-call events of the search branch, lines 139-167. -/
def searchEvs (env : ProducerEnv) : List RawEvent :=
  if searchActive env then
    [ (.tool_call, toolCallData .searching_documents "in_progress"
        "Searching documents for relevant information..."),
      (.tool_call, toolCallData .searching_documents "completed"
        ("Found " ++ toString (pdfContexts env).length ++ " relevant sections")) ]
    ++ (if !(pdfContexts env).isEmpty then
      [ (.tool_call, toolCallData .retrieving_pdf "in_progress"
          "Extracting content from sources..."),
        (.tool_call, toolCallData .retrieving_pdf "completed" "Content extracted") ]
      else [])
  else []

/-- Line 181-185: generating_response in_progress. -/
def genStartEvs : List RawEvent :=
  [ (.tool_call, toolCallData .generating_response "in_progress" "Generating response...") ]

/-- Text events for the Groq content deltas (lines 219-227): falsy (empty)
deltas are skipped by `if chunk.choices[0].delta.content:`. -/
def textEvents (chunks : List String) : List RawEvent :=
  (chunks.filter (fun c => c != "")).map
    (fun c => (.text, [("content", Json.str c), ("is_complete", Json.boolean false)]))

/-- The terminal empty text event with is_complete = true (lines 229-232). -/
def textDoneEv : RawEvent :=
  (.text, [("content", Json.str ""), ("is_complete", Json.boolean true)])

/-- The error event yielded when the Groq call raises (lines 234-239). -/
def backendErrorEv (m : String) : RawEvent :=
  (.error, [("error", Json.str m), ("message", Json.str "Failed to generate response")])

/-- List.zip-free enumeration starting at `n` (Python `enumerate(xs, n)`). -/
def enumFrom (n : Nat) : List α → List (Nat × α)
  | [] => []
  | x :: xs => (n, x) :: enumFrom (n + 1) xs

/-- `Citation(...).model_dump()` for the i-th context (lines 169-178 build the
citation, models.py lines 79-88 give the field set). -/
def citationDump (cid : String) (i : Nat) (ctx : PdfCtx) : List (String × Json) :=
  [ ("id", Json.str cid), ("number", Json.num i), ("pdf_id", Json.str ctx.pdf_id),
    ("page_number", Json.num ctx.page),
    ("text_snippet", Json.str (ctx.text.take 200 ++ "...")),
    ("highlight_start", Json.num 0),
    ("highlight_end", Json.num (min 200 ctx.text.length)),
    ("confidence", Json.jfloat 9 10) ]

/-- `citations` accumulated in lines 169-178 (only when the search branch ran
and found contexts). -/
def producedCitations (env : ProducerEnv) : List (Nat × PdfCtx) :=
  if searchActive env && !(pdfContexts env).isEmpty then enumFrom 1 (pdfContexts env) else []

/-- `SourceCard(...).model_dump()` (lines 253-260, models.py lines 91-98). -/
def sourceCardDump (ctx : PdfCtx) (pc : Nat) (pages : List Nat) : List (String × Json) :=
  [ ("pdf_id", Json.str ctx.pdf_id), ("filename", Json.str ctx.filename),
    ("title", Json.str ctx.title), ("page_count", Json.num pc),
    ("relevant_pages", Json.arr (pages.map Json.num)),
    ("snippet", Json.str (ctx.text.take 150 ++ "...")) ]

/-- `UIComponent(...).model_dump()` (models.py lines 136-140). -/
def uiComponentDump (cid ty : String) (data : List (String × Json)) :
    List (String × Json) :=
  [ ("id", Json.str cid), ("type", Json.str ty), ("data", Json.obj data) ]

/-- The source-card loop of lines 246-267.  `seen` models the `seen_pdfs`
set; a `none` page count makes `.page_count` raise AttributeError, which
escapes the generator mid-stream (second component).  When the loop runs,
`pdf_service` is non-None because `pdf_contexts` is only populated inside the
`if pdf_service and ...` branch. -/
def sourceCardsGo (env : ProducerEnv) (allCtxs : List PdfCtx) (seen : List String) :
    List PdfCtx → List RawEvent × Option String
  | [] => ([], none)
  | ctx :: rest =>
    if ctx.pdf_id ∈ seen then sourceCardsGo env allCtxs seen rest
    else
      match env.pageCount ctx.pdf_id with
      | none => ([], some "AttributeError: NoneType object has no attribute page_count")
      | some pc =>
        let pages := (allCtxs.filter (fun c => c.pdf_id == ctx.pdf_id)).map (·.page)
        let ev : RawEvent :=
          (.ui_component,
            uiComponentDump (env.compId seen.length) "source_card" (sourceCardDump ctx pc pages))
        let r := sourceCardsGo env allCtxs (ctx.pdf_id :: seen) rest
        (ev :: r.1, r.2)

/-- `needle` is a prefix of `hay` (over characters). -/
def startsWithChars : List Char → List Char → Bool
  | [], _ => true
  | _ :: _, [] => false
  | n :: ns, h :: hs => n == h && startsWithChars ns hs

/-- Python's substring test `needle in hay`, over characters. -/
def containsChars (needle : List Char) : List Char → Bool
  | [] => startsWithChars needle []
  | c :: rest => startsWithChars needle (c :: rest) || containsChars needle rest

/-- Whether the message triggers the extra info card (line 270:
`any(keyword in message.lower() for keyword in [...])`). -/
def hasSummaryKeyword (message : String) : Bool :=
  ["compare", "list", "summary", "overview"].any
    (fun k => containsChars k.data (message.data.map Char.toLower))

/-- The info-card event of lines 271-279. -/
def infoCardEvs (env : ProducerEnv) (message : String) (nCards : Nat) : List RawEvent :=
  if hasSummaryKeyword message then
    [ (.ui_component,
        uiComponentDump (env.compId nCards) "info_card"
          [ ("title", Json.str "Quick Summary"),
            ("content", Json.str "This response synthesizes information from multiple sources."),
            ("icon", Json.str "📊") ]) ]
  else []

/-- Line 281-285: generating_response completed. -/
def genDoneEv : RawEvent :=
  (.tool_call, toolCallData .generating_response "completed" "Response complete")

/-- Line 288-291: the done event. -/
def doneEv (citationCount : Nat) : RawEvent :=
  (.done, [("message", Json.str "Stream complete"), ("citation_count", Json.num citationCount)])

/-- `AIService.generate_streaming_response` (ai_service.py lines 100-291) as a
pure function from the environment and the user message to the list of events
yielded, paired with an optional exception that escapes the generator
mid-stream (only possible in the source-card section, via a `None` metadata).
The history argument only shapes the prompt string sent to Groq, never the
yielded events, so it is not a parameter here.  When the Groq call raises,
the inner `except` (lines 234-239) yields one error event and returns: the
exception does NOT escape the generator. -/
def generate_streaming_response (env : ProducerEnv) (message : String) :
    List RawEvent × Option String :=
  let head := thinkingEvs ++ searchEvs env ++ genStartEvs
  match env.groq with
  | .raisesAfter chunks m => (head ++ textEvents chunks ++ [backendErrorEv m], none)
  | .ok chunks =>
    let cits := producedCitations env
    let textSeg := textEvents chunks ++ [textDoneEv]
    let citSeg : List RawEvent :=
      cits.map (fun p => (.citation, citationDump (env.citId p.1) p.1 p.2))
    let cards := sourceCardsGo env (pdfContexts env) [] (pdfContexts env)
    match cards.2 with
    | some e => (head ++ textSeg ++ citSeg ++ cards.1, some e)
    | none =>
      (head ++ textSeg ++ citSeg ++ cards.1
        ++ infoCardEvs env message cards.1.length ++ [genDoneEv, doneEv cits.length], none)

/-! ### Payload heap (Python object aliasing)

`enqueue(task_type, payload)` stores the caller's payload dict by reference
(`Job(..., payload=payload)`, queue_service.py lines 167-171): no copy is
made.  We model the dict store as an explicit heap and a job's `payload`
field as a reference (address) into it. -/

structure HistEntry where
  /-- the `role` key of a history dict (a `model_dump` of `ChatMessage`). -/
  role : String
  /-- the `content` key; `none` models a dict missing the key. -/
  content : Option String
deriving DecidableEq, Repr

structure PayloadVal where
  message : String
  history : List HistEntry
  conversation_id : Option String
deriving DecidableEq, Repr

instance : Inhabited PayloadVal := ⟨⟨"", [], none⟩⟩

abbrev Heap := List (Nat × PayloadVal)

def heapGet (h : Heap) (r : Nat) : Option PayloadVal :=
  (h.find? (fun p => p.1 == r)).map (·.2)

/-- Mutating the dict object at address `r` (what a caller does to a payload
it still holds after `enqueue` returned). -/
def heapSet (h : Heap) (r : Nat) (v : PayloadVal) : Heap :=
  (r, v) :: h.filter (fun p => p.1 != r)

/-! ### Jobs (queue_service.py lines 26-49) -/

structure Job where
  id : String
  task_type : String
  /-- reference to the payload dict: Python stores the dict itself, aliased. -/
  payload : Nat
  status : JobStatus
  error : Option String
  created_at : Nat
  started_at : Option Nat
  completed_at : Option Nat
deriving DecidableEq, Repr

/-- The payload dict a reader of `job.payload` dereferences.  In Python a
held reference is never dangling, so the default is unreachable whenever the
heap really contains the payload the job was enqueued with. -/
def jobPayload (h : Heap) (job : Job) : PayloadVal :=
  (heapGet h job.payload).getD default

/-! ### History validation (`ChatMessage(**msg)`, queue_service.py line 141)

Pydantic validation of one history dict: the `role` must be one of the
`MessageRole` values and `content` must be present. -/

def parseRole : String → Option MessageRole
  | "user" => some .user
  | "assistant" => some .assistant
  | "system" => some .system
  | _ => none

/-- The fields of `ChatMessage` the producer ever reads (`role.value` and
`content`, for the prompt only). -/
structure ChatMessage where
  role : MessageRole
  content : String
deriving DecidableEq, Repr

def parseChatMessage (e : HistEntry) : Except String ChatMessage :=
  match parseRole e.role, e.content with
  | some r, some c => .ok ⟨r, c⟩
  | _, _ => .error "validation error for ChatMessage"

def parseHistory (hs : List HistEntry) : Except String (List ChatMessage) :=
  hs.mapM parseChatMessage

/-! ### The worker's handling of one dequeued job (queue_service.py 93-125)

`chanExists` is `job.id in self._result_queues` / `if result_queue:` — the
guards at lines 113, 124 and 148.  `statusWrites` records the successive
assignments to `job.status` performed by the worker, in program order. -/

structure WorkerJobResult where
  finalJob : Job
  statusWrites : List JobStatus
  /-- items put on the job's result channel, in order; `none` is the
  end-of-stream signal of line 125. -/
  pushed : List (Option Chunk)
deriving Repr

/-- `_process_chat_job` (lines 130-149) followed by the worker's dispatch:
the chunks pushed into the result channel and an optional exception escaping
the job body.  `ChatMessage(**msg)` validation failures (line 141) escape
before anything is pushed; a producer escape (source-card AttributeError)
leaves its earlier events pushed.  For a non-"chat" task the worker raises
`ValueError(f"Unknown task type: ...")` (line 103). -/
def jobBodyRun (env : ProducerEnv) (clock : Nat) (heap : Heap) (job : Job) :
    List Chunk × Option String :=
  if job.task_type == "chat" then
    let pv := jobPayload heap job
    match parseHistory pv.history with
    | .error e => ([], some e)
    | .ok _ =>
      let p := generate_streaming_response env pv.message
      ((withTimestamps clock p.1).map Chunk.sse, p.2)
  else ([], some ("Unknown task type: " ++ job.task_type))

/-- One iteration of `_worker` for a dequeued job (queue_service.py lines
93-125): mark processing, run the body, then on success mark completed, on
exception mark failed + record the error + push the raw error dict, and in
the `finally` set `completed_at` and push the `None` end signal. -/
def worker_process_job (env : ProducerEnv) (clock tStart tEnd : Nat) (heap : Heap)
    (chanExists : Bool) (job : Job) : WorkerJobResult :=
  let j1 : Job := { job with status := .processing, started_at := some tStart }
  let run := jobBodyRun env clock heap job
  let pushedChunks : List (Option Chunk) := if chanExists then run.1.map some else []
  match run.2 with
  | none =>
    { finalJob := { j1 with status := .completed, completed_at := some tEnd },
      statusWrites := [.processing, .completed],
      pushed := pushedChunks ++ (if chanExists then [none] else []) }
  | some e =>
    { finalJob := { j1 with status := .failed, error := some e, completed_at := some tEnd },
      statusWrites := [.processing, .failed],
      pushed := pushedChunks ++ (if chanExists then [some (Chunk.errDict e), none] else []) }

/-- The worker loop over the jobs it dequeues, in order (the `while not
self._shutdown` loop, lines 85-128): the body of each iteration is total —
every job-level failure is caught by the inner `except` — so the loop is a
map and never stops early. -/
def workerLoop (env : ProducerEnv) (clock tStart tEnd : Nat) (heap : Heap)
    (chanExists : Bool) (jobs : List Job) : List WorkerJobResult :=
  jobs.map (worker_process_job env clock tStart tEnd heap chanExists)

/-! ### The service state and enqueue (queue_service.py lines 62-184)

Python dicts with unique keys become association lists where insertion
removes any previous binding, and deletion removes the key; `self._queue`
holds the very Job objects also stored in `self._jobs`, i.e. aliases, so we
keep ids in the dispatch queue and a single job store. -/

def assocGet (m : List (String × α)) (k : String) : Option α :=
  (m.find? (fun p => p.1 == k)).map (·.2)

def assocSet (m : List (String × α)) (k : String) (v : α) : List (String × α) :=
  (k, v) :: m.filter (fun p => p.1 != k)

def assocDel (m : List (String × α)) (k : String) : List (String × α) :=
  m.filter (fun p => p.1 != k)

abbrev ChanMap := List (String × List (Option Chunk))

structure SysState where
  jobs : List (String × Job)
  resultQueues : ChanMap
  /-- contents of `self._queue`, as job ids (the queued Job objects alias
  `self._jobs`). -/
  dispatch : List String
deriving Repr

def SysState.empty : SysState := ⟨[], [], []⟩

/-- `QueueService.enqueue` (lines 151-180): build the Job with status
defaulting to QUEUED, `created_at` defaulting to now, `started_at` and
`completed_at` absent, the payload stored by reference; store it in
`self._jobs`, create the empty result channel, and only then put the job on
the dispatch queue.  `freshId` is the `str(uuid.uuid4())` drawn at line 166. -/
def enqueue (st : SysState) (freshId task_type : String) (payloadRef now : Nat) :
    SysState × Job :=
  let job : Job :=
    { id := freshId, task_type := task_type, payload := payloadRef,
      status := .queued, error := none, created_at := now,
      started_at := none, completed_at := none }
  ({ jobs := assocSet st.jobs freshId job,
     resultQueues := assocSet st.resultQueues freshId [],
     dispatch := st.dispatch ++ [freshId] }, job)

/-- `QueueService.get_job` (lines 182-184). -/
def get_job (st : SysState) (jid : String) : Option Job :=
  assocGet st.jobs jid

/-! ### Draining a result channel (get_result_stream, lines 186-207) -/

/-- One unit yielded by the `get_result_stream` generator. -/
inductive DeliveredUnit where
  /-- an item read from the channel and yielded verbatim (line 204). -/
  | item (c : Chunk)
  /-- the literal string `data: \x7b'error': 'Job not found'\x7d\n\n`
  yielded at line 193 — SSE-framed, but its body is a Python-repr dict with
  single quotes, not JSON of shape type/data/timestamp. -/
  | notFound
deriving Repr

def DeliveredUnit.isSSE : DeliveredUnit → Bool
  | .item c => c.isSSE
  | .notFound => false

/-- Split a channel buffer at the first end-of-stream marker: the items
before it and the remainder after it; `none` if no marker is buffered. -/
def splitAtMarker : List (Option Chunk) → Option (List Chunk × List (Option Chunk))
  | [] => none
  | none :: rest => some ([], rest)
  | some c :: rest => (splitAtMarker rest).map (fun p => (c :: p.1, p.2))

/-- Outcome of running the `get_result_stream` generator against the current
channel map, with no concurrent pushes (the interleaved case is the
transition system below). -/
inductive DrainOutcome where
  /-- the generator terminated, having yielded `units`; `m'` is the channel
  map afterwards (the channel is deleted at line 207 after the end signal). -/
  | unitsDone (units : List DeliveredUnit) (m' : ChanMap)
  /-- the generator consumed every buffered item without meeting the end
  signal and is suspended in `await result_queue.get()` (line 199). -/
  | wouldBlock (consumed : List DeliveredUnit) (m' : ChanMap)
deriving Repr

/-- `QueueService.get_result_stream` (lines 186-207): unknown job ids yield
the single not-found unit and terminate (lines 192-194); otherwise items are
read in FIFO order until the `None` end signal, after which the channel is
deleted (line 207). -/
def get_result_stream (m : ChanMap) (jid : String) : DrainOutcome :=
  match assocGet m jid with
  | none => .unitsDone [.notFound] m
  | some buf =>
    match splitAtMarker buf with
    | some p => .unitsDone (p.1.map .item) (assocDel m jid)
    | none => .wouldBlock ((buf.filterMap id).map .item) (assocSet m jid [])

/-! ### Interleaved producer/consumer semantics of one job's result channel

The worker coroutine pushes the produced events in order (queue_service.py
line 149) and, after the producer finishes, the end signal (line 125); the
streaming generator concurrently pops items in FIFO order (line 199) and
stops at the end signal (lines 201-202).  `ChanStep` is the small-step
interleaving of these two loops for a single job whose producer emits the
events of `toPush` and finishes normally. -/

structure ChanSys (α : Type) where
  /-- events the producer has not yet pushed. -/
  toPush : List α
  /-- the FIFO buffer of the job's `asyncio.Queue`; `none` is the end signal. -/
  chan : List (Option α)
  /-- the worker's `finally` has put the end signal (line 125). -/
  closed : Bool
  /-- events the drain has yielded so far, in order. -/
  drained : List α
  /-- the drain observed the end signal and broke out (lines 201-202). -/
  finished : Bool
deriving Repr

inductive ChanStep {α : Type} : ChanSys α → ChanSys α → Prop where
  /-- the producer pushes its next event (line 149). -/
  | push (e : α) (rest : List α) (chan : List (Option α)) (d : List α) (f : Bool) :
      ChanStep ⟨e :: rest, chan, false, d, f⟩ ⟨rest, chan ++ [some e], false, d, f⟩
  /-- after the last event, the worker's `finally` pushes the end signal
  (line 125). -/
  | close (chan : List (Option α)) (d : List α) (f : Bool) :
      ChanStep ⟨[], chan, false, d, f⟩ ⟨[], chan ++ [none], true, d, f⟩
  /-- the drain pops a buffered event and yields it (lines 199, 204). -/
  | take (tp : List α) (e : α) (rest : List (Option α)) (c : Bool) (d : List α) :
      ChanStep ⟨tp, some e :: rest, c, d, false⟩ ⟨tp, rest, c, d ++ [e], false⟩
  /-- the drain pops the end signal and terminates (lines 201-202). -/
  | takeEnd (tp : List α) (rest : List (Option α)) (c : Bool) (d : List α) :
      ChanStep ⟨tp, none :: rest, c, d, false⟩ ⟨tp, rest, c, d, true⟩

/-- The channel of a job whose producer will emit `es`, before processing
starts and before any consumer attached. -/
def chanInit (es : List α) : ChanSys α := ⟨es, [], false, [], false⟩

/-- States reachable by any interleaving of the worker's pushes and a single
drain's pops. -/
inductive ChanReach {α : Type} (es : List α) : ChanSys α → Prop where
  | init : ChanReach es (chanInit es)
  | step {s t : ChanSys α} : ChanReach es s → ChanStep s t → ChanReach es t

/-! ### The direct streaming route (routes/chat.py lines 90-120)

`stream_message_direct` defines an inner async generator that, on its first
iteration, evaluates `request.pdf_ids` before calling the producer.  Defining
the generator and constructing the `StreamingResponse` cannot raise, so the
handler's `try`/`except HTTPException(500)` never fires for this error: the
generator body only runs when the ASGI server iterates the already-started
200 response.  Attribute access on the pydantic `ChatRequest` model
(models.py lines 62-66: fields `message`, `conversation_id`, `history`) is
modelled by `chatRequestGetAttr`. -/

inductive PyVal where
  | str (s : String)
  | optStr (s : Option String)
  | histList (h : List HistEntry)
deriving Repr

structure ChatRequest where
  message : String
  conversation_id : Option String
  history : List HistEntry
deriving Repr

/-- Python attribute lookup on a `ChatRequest` instance: only the three
declared fields exist; anything else raises `AttributeError` (= `none`). -/
def chatRequestGetAttr (r : ChatRequest) (name : String) : Option PyVal :=
  if name = "message" then some (.str r.message)
  else if name = "conversation_id" then some (.optStr r.conversation_id)
  else if name = "history" then some (.histList r.history)
  else none

inductive HandlerOutcome where
  /-- `raise HTTPException(status_code=..., detail=...)`. -/
  | httpError (status : Nat) (detail : String)
  /-- a `StreamingResponse` whose body generator, when first iterated by the
  server, either raises (`Except.error`) or yields the given chunks. -/
  | streamingResponse (firstStep : Except String (List Chunk))
deriving Repr

def attrErrMsg : String :=
  "AttributeError: ChatRequest object has no attribute pdf_ids"

/-- `stream_message_direct` (routes/chat.py lines 90-120).  The handler body
never raises: it returns a `StreamingResponse` whose generator evaluates
`request.pdf_ids` lazily.  The `some` branch (the call with a third
positional argument, which `generate_streaming_response` does not accept) is
unreachable because `pdf_ids` is not a `ChatRequest` field. -/
def stream_message_direct (req : ChatRequest) : HandlerOutcome :=
  HandlerOutcome.streamingResponse
    (match chatRequestGetAttr req "pdf_ids" with
     | none => Except.error attrErrMsg
     | some _ =>
       Except.error "TypeError: generate_streaming_response takes 3 positional arguments")

def HandlerOutcome.isHttp500 : HandlerOutcome → Bool
  | .httpError 500 _ => true
  | _ => false

/-! ### Association-list and heap lemmas -/

theorem find?_filter_ne {α : Type} (m : List (String × α)) (k j : String) (h : j ≠ k) :
    (m.filter (fun p => p.1 != k)).find? (fun p => p.1 == j)
      = m.find? (fun p => p.1 == j) := by
  have hkj : (k == j) = false := beq_eq_false_iff_ne.mpr (fun e => h e.symm)
  induction m with
  | nil => rfl
  | cons a t ih =>
    by_cases hk : a.1 = k
    · have hj : (a.1 == j) = false := by
        simp [hk]
        intro e
        exact h e.symm
      simp [List.filter_cons, hk, List.find?_cons, hj, hkj, ih]
    · by_cases hj : a.1 = j
      · simp [List.filter_cons, hk, List.find?_cons, hj, h]
      · simp [List.filter_cons, hk, List.find?_cons, hj, h, ih]

theorem assocGet_set_self {α : Type} (m : List (String × α)) (k : String) (v : α) :
    assocGet (assocSet m k v) k = some v := by
  simp [assocGet, assocSet, List.find?_cons]

theorem assocGet_set_ne {α : Type} (m : List (String × α)) (k j : String) (v : α)
    (h : j ≠ k) : assocGet (assocSet m k v) j = assocGet m j := by
  have hkj : (k == j) = false := by
    simp
    intro e
    exact h e.symm
  simp [assocGet, assocSet, List.find?_cons, hkj, find?_filter_ne m k j h]

theorem assocGet_del_self {α : Type} (m : List (String × α)) (k : String) :
    assocGet (assocDel m k) k = none := by
  have hnone : (m.filter (fun p => p.1 != k)).find? (fun p => p.1 == k) = none := by
    rw [List.find?_eq_none]
    intro x hx
    have hx2 := List.of_mem_filter hx
    simpa using hx2
  simp [assocGet, assocDel, hnone]

theorem heapGet_set_self (h : Heap) (r : Nat) (v : PayloadVal) :
    heapGet (heapSet h r v) r = some v := by
  simp [heapGet, heapSet, List.find?_cons]

/-! ### Claim C4: the payload snapshot -/

/-- C4 counterexample.  The claim says mutating the caller-supplied payload
after `enqueue` returns does not change the queued job's payload as seen by
the worker.  It is false: `enqueue` stores the payload dict by reference
(queue_service.py line 170, `payload=payload` — no copy), so a mutation at
the same address is seen by the worker.  Concrete input: payload dict at
address 0 holding message "original", enqueued, then mutated to "mutated". -/
theorem claim4_counterexample :
    let h0 : Heap := [(0, ⟨"original", [], none⟩)]
    let r := enqueue SysState.empty "j1" "chat" 0 0
    let h1 := heapSet h0 0 ⟨"mutated", [], none⟩
    jobPayload h1 r.2 = ⟨"mutated", [], none⟩ ∧
    jobPayload h1 r.2 ≠ jobPayload h0 r.2 ∧
    jobPayload h0 r.2 = ⟨"original", [], none⟩ := by
  refine ⟨rfl, by decide, rfl⟩

/-- C4 amended: the payload stored in a job at submission is the caller's
payload object by reference, not a deep copy: the enqueued job's `payload`
field is exactly the caller's reference, and mutating the referenced dict
after `enqueue` returns changes the payload the worker sees.  (The HTTP
route `send_message` builds a fresh payload dict per request and never
mutates it afterwards, so the aliasing is unobservable through that route.) -/
theorem claim4_amended (st : SysState) (freshId task_type : String)
    (r now : Nat) (h : Heap) (v : PayloadVal) :
    ((enqueue st freshId task_type r now).2).payload = r ∧
    jobPayload (heapSet h r v) (enqueue st freshId task_type r now).2 = v := by
  refine ⟨rfl, ?_⟩
  simp [jobPayload, enqueue, heapGet_set_self]

/-! ### Claim C6: draining without a channel -/

/-- C6: draining a job_id with no result channel — never submitted, or
already fully consumed and released — yields a single not-found signal and
terminates immediately (queue_service.py lines 192-194, 207): (1) an unknown
id yields exactly the one not-found unit and the generator returns; (2) a
drain that observed the end signal deletes the channel, and a second drain
of the same id yields the single not-found unit. -/
theorem claim6_drain_released (m : ChanMap) (jid : String) :
    (assocGet m jid = none →
      get_result_stream m jid = .unitsDone [.notFound] m) ∧
    (∀ buf evs rest, assocGet m jid = some buf → splitAtMarker buf = some (evs, rest) →
      get_result_stream m jid = .unitsDone (evs.map .item) (assocDel m jid) ∧
      get_result_stream (assocDel m jid) jid
        = .unitsDone [.notFound] (assocDel m jid)) := by
  constructor
  · intro h
    simp [get_result_stream, h]
  · intro buf evs rest h1 h2
    constructor
    · simp [get_result_stream, h1, h2]
    · simp [get_result_stream, assocGet_del_self]

/-- C6 witness: a map holding one channel for "a" (one event then the end
signal).  Draining the unknown id "b" yields not-found only; draining "a"
delivers the event and releases the channel, and draining "a" again yields
not-found only. -/
theorem claim6_witness :
    get_result_stream [("a", [some (Chunk.errDict "x"), none])] "b"
        = .unitsDone [.notFound] [("a", [some (Chunk.errDict "x"), none])] ∧
    get_result_stream [("a", [some (Chunk.errDict "x"), none])] "a"
        = .unitsDone [.item (Chunk.errDict "x")]
            (assocDel [("a", [some (Chunk.errDict "x"), none])] "a") ∧
    get_result_stream (assocDel [("a", [some (Chunk.errDict "x"), none])] "a") "a"
        = .unitsDone [.notFound] (assocDel [("a", [some (Chunk.errDict "x"), none])] "a") := by
  refine ⟨(claim6_drain_released [("a", [some (Chunk.errDict "x"), none])] "b").1 rfl, ?_, ?_⟩
  · exact ((claim6_drain_released [("a", [some (Chunk.errDict "x"), none])] "a").2
      [some (Chunk.errDict "x"), none] [Chunk.errDict "x"] [] rfl rfl).1
  · exact ((claim6_drain_released [("a", [some (Chunk.errDict "x"), none])] "a").2
      [some (Chunk.errDict "x"), none] [Chunk.errDict "x"] [] rfl rfl).2

/-! ### Claim C9: submission is atomic and fire-and-forget -/

/-- C9: `enqueue` (queue_service.py lines 151-180) assigns the drawn id,
status QUEUED, the created timestamp, leaves started/completed/error absent,
stores the job and an empty result channel in the maps before appending the
job to the dispatch queue (so it is visible to `get_job` lookups before any
worker can dequeue it), returns without pushing anything to any channel and
without invoking the producer, and — provided the drawn uuid4 id is fresh —
clobbers no existing job.  The freshness hypothesis models uuid4 collision
freedom. -/
theorem claim9_enqueue_atomic (st : SysState) (freshId task_type : String)
    (payloadRef now : Nat) (hfresh : assocGet st.jobs freshId = none) :
    let r := enqueue st freshId task_type payloadRef now
    r.2.id = freshId ∧ r.2.task_type = task_type ∧ r.2.status = .queued ∧
    r.2.created_at = now ∧ r.2.started_at = none ∧ r.2.completed_at = none ∧
    r.2.error = none ∧ r.2.payload = payloadRef ∧
    get_job r.1 freshId = some r.2 ∧
    assocGet r.1.resultQueues freshId = some [] ∧
    r.1.dispatch = st.dispatch ++ [freshId] ∧
    (∀ j, j ≠ freshId →
      get_job r.1 j = get_job st j ∧
      assocGet r.1.resultQueues j = assocGet st.resultQueues j) ∧
    (∀ j v, get_job st j = some v → get_job r.1 j = some v) := by
  refine ⟨rfl, rfl, rfl, rfl, rfl, rfl, rfl, rfl, ?_, ?_, rfl, ?_, ?_⟩
  · exact assocGet_set_self st.jobs freshId _
  · exact assocGet_set_self st.resultQueues freshId []
  · intro j hj
    exact ⟨assocGet_set_ne st.jobs freshId j _ hj, assocGet_set_ne st.resultQueues freshId j _ hj⟩
  · intro j v hv
    have hj : j ≠ freshId := by
      intro e
      rw [e, show get_job st freshId = assocGet st.jobs freshId from rfl, hfresh] at hv
      cases hv
    rw [show get_job (enqueue st freshId task_type payloadRef now).1 j
          = assocGet (assocSet st.jobs freshId _) j from rfl,
        assocGet_set_ne st.jobs freshId j _ hj]
    exact hv

/-- C9 witness: enqueue into the empty service state; the frame condition
instantiated at the distinct id "other". -/
theorem claim9_witness :
    (enqueue SysState.empty "j1" "chat" 0 7).2.id = "j1" ∧
    (enqueue SysState.empty "j1" "chat" 0 7).2.status = .queued ∧
    (enqueue SysState.empty "j1" "chat" 0 7).2.created_at = 7 ∧
    (enqueue SysState.empty "j1" "chat" 0 7).2.started_at = none ∧
    (enqueue SysState.empty "j1" "chat" 0 7).2.completed_at = none ∧
    (enqueue SysState.empty "j1" "chat" 0 7).2.error = none ∧
    get_job (enqueue SysState.empty "j1" "chat" 0 7).1 "j1"
      = some (enqueue SysState.empty "j1" "chat" 0 7).2 ∧
    assocGet (enqueue SysState.empty "j1" "chat" 0 7).1.resultQueues "j1" = some [] ∧
    (enqueue SysState.empty "j1" "chat" 0 7).1.dispatch = [] ++ ["j1"] ∧
    get_job (enqueue SysState.empty "j1" "chat" 0 7).1 "other"
      = get_job SysState.empty "other" :=
  ⟨(claim9_enqueue_atomic SysState.empty "j1" "chat" 0 7 rfl).1,
   (claim9_enqueue_atomic SysState.empty "j1" "chat" 0 7 rfl).2.2.1,
   (claim9_enqueue_atomic SysState.empty "j1" "chat" 0 7 rfl).2.2.2.1,
   (claim9_enqueue_atomic SysState.empty "j1" "chat" 0 7 rfl).2.2.2.2.1,
   (claim9_enqueue_atomic SysState.empty "j1" "chat" 0 7 rfl).2.2.2.2.2.1,
   (claim9_enqueue_atomic SysState.empty "j1" "chat" 0 7 rfl).2.2.2.2.2.2.1,
   (claim9_enqueue_atomic SysState.empty "j1" "chat" 0 7 rfl).2.2.2.2.2.2.2.2.1,
   (claim9_enqueue_atomic SysState.empty "j1" "chat" 0 7 rfl).2.2.2.2.2.2.2.2.2.1,
   (claim9_enqueue_atomic SysState.empty "j1" "chat" 0 7 rfl).2.2.2.2.2.2.2.2.2.2.1,
   ((claim9_enqueue_atomic SysState.empty "j1" "chat" 0 7 rfl).2.2.2.2.2.2.2.2.2.2.2.1
      "other" (by decide)).1⟩

/-! ### Claim C10: the direct streaming endpoint -/

/-- C10 counterexample.  The claim says every call to the direct streaming
endpoint raises `AttributeError` before streaming starts and is returned as
an HTTP 500.  The second half is false: the handler's `try` completes
normally (it only defines the generator and constructs the
`StreamingResponse`), so for the concrete request below the outcome is a
streaming response, not an HTTP 500 — the `AttributeError` fires only when
the server first iterates the already-started response body. -/
theorem claim10_counterexample :
    stream_message_direct ⟨"What is the refund policy?", none, []⟩
        = .streamingResponse (Except.error attrErrMsg) ∧
    (stream_message_direct ⟨"What is the refund policy?", none, []⟩).isHttp500 = false :=
  ⟨rfl, rfl⟩

/-- C10 amended: the direct streaming endpoint fails for every request —
`request.pdf_ids` does not exist on `ChatRequest` (models.py lines 62-66) —
but the `AttributeError` is raised lazily inside the response generator on
its first iteration, after the handler has already returned the streaming
response; it is never converted to an HTTP 500, and no successful stream is
ever produced. -/
theorem claim10_amended (req : ChatRequest) :
    chatRequestGetAttr req "pdf_ids" = none ∧
    stream_message_direct req = .streamingResponse (Except.error attrErrMsg) ∧
    (stream_message_direct req).isHttp500 = false :=
  ⟨rfl, rfl, rfl⟩

/-! ### Worker-shape lemmas -/

/-- On a successful body run the worker marks COMPLETED and pushes the
chunks followed by the end signal. -/
theorem worker_ok_shape (env : ProducerEnv) (clock tS tE : Nat) (heap : Heap)
    (chanExists : Bool) (job : Job)
    (h : (jobBodyRun env clock heap job).2 = none) :
    worker_process_job env clock tS tE heap chanExists job =
      { finalJob :=
          { job with
            status := .completed,
            started_at := some tS,
            completed_at := some tE },
        statusWrites := [.processing, .completed],
        pushed := (if chanExists then (jobBodyRun env clock heap job).1.map some else [])
          ++ (if chanExists then [none] else []) } := by
  simp only [worker_process_job, h]

/-- On a body-run exception the worker marks FAILED, records the error, and
pushes the chunks, then the raw error dict, then the end signal. -/
theorem worker_err_shape (env : ProducerEnv) (clock tS tE : Nat) (heap : Heap)
    (chanExists : Bool) (job : Job) (e : String)
    (h : (jobBodyRun env clock heap job).2 = some e) :
    worker_process_job env clock tS tE heap chanExists job =
      { finalJob :=
          { job with
            status := .failed,
            error := some e,
            started_at := some tS,
            completed_at := some tE },
        statusWrites := [.processing, .failed],
        pushed := (if chanExists then (jobBodyRun env clock heap job).1.map some else [])
          ++ (if chanExists then [some (Chunk.errDict e), none] else []) } := by
  simp only [worker_process_job, h]

/-- Every worker iteration ends the job in a terminal status. -/
theorem worker_terminal (env : ProducerEnv) (clock tS tE : Nat) (heap : Heap)
    (chanExists : Bool) (job : Job) :
    (worker_process_job env clock tS tE heap chanExists job).finalJob.status = .completed ∨
    (worker_process_job env clock tS tE heap chanExists job).finalJob.status = .failed := by
  cases h : (jobBodyRun env clock heap job).2 with
  | none => left; rw [worker_ok_shape env clock tS tE heap chanExists job h]
  | some e => right; rw [worker_err_shape env clock tS tE heap chanExists job e h]

/-! ### Claim C3: status monotonicity -/

/-- C3: the sequence of status values a job takes — QUEUED at creation
(queue_service.py line 32 via `enqueue`), then the worker's writes at lines
95, 105, 109 — is exactly [queued, processing, completed] or
[queued, processing, failed]: it starts at queued, never skips queued, and
is a subsequence of Queued, Processing, Completed|Failed with no move
backwards. -/
theorem claim3_status_monotone (env : ProducerEnv) (clock tS tE : Nat) (heap : Heap)
    (chanExists : Bool) (job : Job) :
    let tr := JobStatus.queued ::
      (worker_process_job env clock tS tE heap chanExists job).statusWrites
    (tr = [.queued, .processing, .completed] ∨ tr = [.queued, .processing, .failed]) ∧
    tr.head? = some .queued ∧
    (List.Sublist tr [.queued, .processing, .completed] ∨
     List.Sublist tr [.queued, .processing, .failed]) := by
  intro tr
  have hshape : tr = [.queued, .processing, .completed] ∨
      tr = [.queued, .processing, .failed] := by
    cases h : (jobBodyRun env clock heap job).2 with
    | none =>
      left
      show JobStatus.queued :: _ = _
      rw [worker_ok_shape env clock tS tE heap chanExists job h]
    | some e =>
      right
      show JobStatus.queued :: _ = _
      rw [worker_err_shape env clock tS tE heap chanExists job e h]
  refine ⟨hshape, ?_, ?_⟩
  · rcases hshape with h | h <;> rw [h] <;> rfl
  · rcases hshape with h | h
    · left; rw [h]
    · right; rw [h]

/-! ### Claim C5: the end signal is a guaranteed finalizer -/

theorem splitAtMarker_map_some_append (l : List Chunk) (rest : List (Option Chunk)) :
    splitAtMarker (l.map some ++ (none :: rest)) = some (l, rest) := by
  induction l with
  | nil => rfl
  | cons a t ih => simp [splitAtMarker, ih]

theorem countP_isNone_map_some (l : List Chunk) :
    (l.map some).countP (fun u => u.isNone) = 0 := by
  rw [List.countP_eq_zero]
  intro a ha
  rcases List.mem_map.mp ha with ⟨c, _, rfl⟩
  simp

theorem getLast?_append_single {α : Type} (l : List α) (a : α) :
    (l ++ [a]).getLast? = some a := by
  rw [List.getLast?_concat]

/-- `worker_ok_shape` with the channel present: the ifs evaluated. -/
theorem worker_ok_chan (env : ProducerEnv) (clock tS tE : Nat) (heap : Heap) (job : Job)
    (h : (jobBodyRun env clock heap job).2 = none) :
    worker_process_job env clock tS tE heap true job =
      { finalJob :=
          { job with
            status := .completed,
            started_at := some tS,
            completed_at := some tE },
        statusWrites := [.processing, .completed],
        pushed := (jobBodyRun env clock heap job).1.map some ++ [none] } := by
  rw [worker_ok_shape env clock tS tE heap true job h]
  rfl

/-- `worker_err_shape` with the channel present: the ifs evaluated. -/
theorem worker_err_chan (env : ProducerEnv) (clock tS tE : Nat) (heap : Heap) (job : Job)
    (e : String) (h : (jobBodyRun env clock heap job).2 = some e) :
    worker_process_job env clock tS tE heap true job =
      { finalJob :=
          { job with
            status := .failed,
            error := some e,
            started_at := some tS,
            completed_at := some tE },
        statusWrites := [.processing, .failed],
        pushed := (jobBodyRun env clock heap job).1.map some
          ++ [some (Chunk.errDict e), none] } := by
  rw [worker_err_shape env clock tS tE heap true job e h]
  rfl

/-- C5: for every job the worker runs with its result channel present, the
end signal is appended exactly once — on the success path (queue_service.py
line 125 after line 105) and on the failure path (line 125 after lines
109-117) — it is the last item, any drain over the pushed items reaches it
(the drain loop terminates, with nothing left after the signal), and on the
failure path the channel ends with the error item directly followed by the
end signal. -/
theorem claim5_end_signal_once (env : ProducerEnv) (clock tS tE : Nat) (heap : Heap)
    (job : Job) :
    let r := worker_process_job env clock tS tE heap true job
    r.pushed.countP (fun u => u.isNone) = 1 ∧
    r.pushed.getLast? = some none ∧
    (∃ evs, splitAtMarker r.pushed = some (evs, [])) ∧
    (r.finalJob.status = .failed →
      ∃ (e : String) (pre : List Chunk), r.finalJob.error = some e ∧
        r.pushed = pre.map some ++ [some (Chunk.errDict e), none]) := by
  intro r
  cases h : (jobBodyRun env clock heap job).2 with
  | none =>
    have hr : r = _ := worker_ok_chan env clock tS tE heap job h
    rw [hr]
    refine ⟨?_, ?_, ?_, ?_⟩
    · rw [List.countP_append, countP_isNone_map_some]
      rfl
    · exact getLast?_append_single _ _
    · exact ⟨(jobBodyRun env clock heap job).1,
        splitAtMarker_map_some_append (jobBodyRun env clock heap job).1 []⟩
    · intro hst
      exact absurd hst (by simp)
  | some e =>
    have hr : r = _ := worker_err_chan env clock tS tE heap job e h
    rw [hr]
    refine ⟨?_, ?_, ?_, ?_⟩
    · rw [List.countP_append, countP_isNone_map_some]
      rfl
    · rw [show (jobBodyRun env clock heap job).1.map some ++ [some (Chunk.errDict e), none]
          = ((jobBodyRun env clock heap job).1.map some ++ [some (Chunk.errDict e)]) ++ [none]
          by simp]
      exact getLast?_append_single _ _
    · refine ⟨(jobBodyRun env clock heap job).1 ++ [Chunk.errDict e], ?_⟩
      rw [show (jobBodyRun env clock heap job).1.map some ++ [some (Chunk.errDict e), none]
          = ((jobBodyRun env clock heap job).1 ++ [Chunk.errDict e]).map some ++ (none :: [])
          by simp]
      exact splitAtMarker_map_some_append _ []
    · intro _
      exact ⟨e, (jobBodyRun env clock heap job).1, rfl, rfl⟩

/-- C5 witness: a job with an unknown task type (failure path) run with its
channel present: one end signal, last, with the error item before it. -/
theorem claim5_witness :
    (worker_process_job
      ⟨false, [], [], .ok [], fun _ => none, fun _ => "", fun _ => ""⟩ 0 1 2 [] true
      ⟨"j1", "bogus", 0, .queued, none, 0, none, none⟩).pushed.countP
        (fun u => u.isNone) = 1 ∧
    (worker_process_job
      ⟨false, [], [], .ok [], fun _ => none, fun _ => "", fun _ => ""⟩ 0 1 2 [] true
      ⟨"j1", "bogus", 0, .queued, none, 0, none, none⟩).pushed.getLast? = some none ∧
    (∃ (e : String) (pre : List Chunk),
      (worker_process_job
        ⟨false, [], [], .ok [], fun _ => none, fun _ => "", fun _ => ""⟩ 0 1 2 [] true
        ⟨"j1", "bogus", 0, .queued, none, 0, none, none⟩).finalJob.error = some e ∧
      (worker_process_job
        ⟨false, [], [], .ok [], fun _ => none, fun _ => "", fun _ => ""⟩ 0 1 2 [] true
        ⟨"j1", "bogus", 0, .queued, none, 0, none, none⟩).pushed
          = pre.map some ++ [some (Chunk.errDict e), none]) :=
  ⟨(claim5_end_signal_once
      ⟨false, [], [], .ok [], fun _ => none, fun _ => "", fun _ => ""⟩ 0 1 2 []
      ⟨"j1", "bogus", 0, .queued, none, 0, none, none⟩).1,
   (claim5_end_signal_once
      ⟨false, [], [], .ok [], fun _ => none, fun _ => "", fun _ => ""⟩ 0 1 2 []
      ⟨"j1", "bogus", 0, .queued, none, 0, none, none⟩).2.1,
   (claim5_end_signal_once
      ⟨false, [], [], .ok [], fun _ => none, fun _ => "", fun _ => ""⟩ 0 1 2 []
      ⟨"j1", "bogus", 0, .queued, none, 0, none, none⟩).2.2.2 rfl⟩

/-! ### Claim C7: unknown task types and worker survival -/

/-- C7: a dequeued job whose task_type is not "chat" ends FAILED with the
descriptive (non-empty) error "Unknown task type: <type>" recorded, handled
by the same except-branch as a producer failure (queue_service.py lines
100-117); and any failure inside one job is caught by the worker, which
records it and continues its loop: the loop over `job :: jobs` is the result
for `job` followed by the unchanged processing of `jobs`, and every dequeued
job — whatever its body does — reaches a terminal status. -/
theorem claim7_unknown_task_type (env : ProducerEnv) (clock tS tE : Nat) (heap : Heap)
    (chanExists : Bool) (job : Job) (jobs : List Job) (h : job.task_type ≠ "chat") :
    let r := worker_process_job env clock tS tE heap chanExists job
    r.finalJob.status = .failed ∧
    r.finalJob.error = some ("Unknown task type: " ++ job.task_type) ∧
    ("Unknown task type: " ++ job.task_type) ≠ "" ∧
    workerLoop env clock tS tE heap chanExists (job :: jobs)
      = r :: workerLoop env clock tS tE heap chanExists jobs ∧
    (∀ res ∈ workerLoop env clock tS tE heap chanExists (job :: jobs),
      res.finalJob.status = .completed ∨ res.finalJob.status = .failed) := by
  intro r
  have hbody : jobBodyRun env clock heap job
      = ([], some ("Unknown task type: " ++ job.task_type)) := by
    unfold jobBodyRun
    rw [if_neg]
    simpa using h
  have hr : r = _ :=
    worker_err_shape env clock tS tE heap chanExists job _ (by rw [hbody])
  refine ⟨?_, ?_, ?_, rfl, ?_⟩
  · rw [hr]
  · rw [hr]
  · intro hempty
    have hlen := congrArg String.length hempty
    rw [String.length_append] at hlen
    have h19 : ("Unknown task type: " : String).length = 19 := by decide
    have h0 : ("" : String).length = 0 := by decide
    rw [h19, h0] at hlen
    omega
  · intro res hres
    rcases List.mem_cons.mp hres with hres | hres
    · rw [hres]
      exact worker_terminal env clock tS tE heap chanExists job
    · rcases List.mem_map.mp hres with ⟨j2, _, rfl⟩
      exact worker_terminal env clock tS tE heap chanExists j2

/-- C7 witness: the concrete unknown task type "embedding". -/
theorem claim7_witness :
    (worker_process_job
      ⟨false, [], [], .ok [], fun _ => none, fun _ => "", fun _ => ""⟩ 0 1 2 [] true
      ⟨"j1", "embedding", 0, .queued, none, 0, none, none⟩).finalJob.status = .failed ∧
    (worker_process_job
      ⟨false, [], [], .ok [], fun _ => none, fun _ => "", fun _ => ""⟩ 0 1 2 [] true
      ⟨"j1", "embedding", 0, .queued, none, 0, none, none⟩).finalJob.error
        = some ("Unknown task type: " ++ "embedding") ∧
    ("Unknown task type: " ++ "embedding") ≠ "" ∧
    workerLoop ⟨false, [], [], .ok [], fun _ => none, fun _ => "", fun _ => ""⟩ 0 1 2 [] true
        (⟨"j1", "embedding", 0, .queued, none, 0, none, none⟩ :: [])
      = worker_process_job
          ⟨false, [], [], .ok [], fun _ => none, fun _ => "", fun _ => ""⟩ 0 1 2 [] true
          ⟨"j1", "embedding", 0, .queued, none, 0, none, none⟩
        :: workerLoop ⟨false, [], [], .ok [], fun _ => none, fun _ => "", fun _ => ""⟩
          0 1 2 [] true [] ∧
    ((worker_process_job
      ⟨false, [], [], .ok [], fun _ => none, fun _ => "", fun _ => ""⟩ 0 1 2 [] true
      ⟨"j1", "embedding", 0, .queued, none, 0, none, none⟩).finalJob.status = .completed ∨
     (worker_process_job
      ⟨false, [], [], .ok [], fun _ => none, fun _ => "", fun _ => ""⟩ 0 1 2 [] true
      ⟨"j1", "embedding", 0, .queued, none, 0, none, none⟩).finalJob.status = .failed) :=
  ⟨(claim7_unknown_task_type
      ⟨false, [], [], .ok [], fun _ => none, fun _ => "", fun _ => ""⟩ 0 1 2 [] true
      ⟨"j1", "embedding", 0, .queued, none, 0, none, none⟩ [] (by decide)).1,
   (claim7_unknown_task_type
      ⟨false, [], [], .ok [], fun _ => none, fun _ => "", fun _ => ""⟩ 0 1 2 [] true
      ⟨"j1", "embedding", 0, .queued, none, 0, none, none⟩ [] (by decide)).2.1,
   (claim7_unknown_task_type
      ⟨false, [], [], .ok [], fun _ => none, fun _ => "", fun _ => ""⟩ 0 1 2 [] true
      ⟨"j1", "embedding", 0, .queued, none, 0, none, none⟩ [] (by decide)).2.2.1,
   (claim7_unknown_task_type
      ⟨false, [], [], .ok [], fun _ => none, fun _ => "", fun _ => ""⟩ 0 1 2 [] true
      ⟨"j1", "embedding", 0, .queued, none, 0, none, none⟩ [] (by decide)).2.2.2.1,
   (claim7_unknown_task_type
      ⟨false, [], [], .ok [], fun _ => none, fun _ => "", fun _ => ""⟩ 0 1 2 [] true
      ⟨"j1", "embedding", 0, .queued, none, 0, none, none⟩ [] (by decide)).2.2.2.2
      (worker_process_job
        ⟨false, [], [], .ok [], fun _ => none, fun _ => "", fun _ => ""⟩ 0 1 2 [] true
        ⟨"j1", "embedding", 0, .queued, none, 0, none, none⟩)
      (List.mem_cons_self _ _)⟩

/-! ### Claim C2: exact FIFO delivery under any interleaving -/

def evsOf {α : Type} (c : List (Option α)) : List α := c.filterMap id

/-- Invariant of the producer/consumer interleaving: the drained events, the
buffered events and the not-yet-pushed events concatenate to the producer's
full emission; the end signal sits at the back of the buffer once (and only
once) the worker closed; nothing remains after the drain terminates. -/
def ChanInv {α : Type} (es : List α) (s : ChanSys α) : Prop :=
  s.drained ++ evsOf s.chan ++ s.toPush = es ∧
  (s.finished = true → s.closed = true) ∧
  (s.closed = false → s.chan = (evsOf s.chan).map some) ∧
  (s.closed = true → s.toPush = []) ∧
  (s.closed = true → s.finished = false → s.chan = (evsOf s.chan).map some ++ [none]) ∧
  (s.finished = true → s.chan = [])

theorem evsOf_append {α : Type} (a b : List (Option α)) :
    evsOf (a ++ b) = evsOf a ++ evsOf b := by
  simp [evsOf]

theorem chanInv_init {α : Type} (es : List α) : ChanInv es (chanInit es) := by
  refine ⟨by simp [chanInit, evsOf], ?_, ?_, ?_, ?_, ?_⟩ <;>
    simp [chanInit, evsOf]

theorem chanInv_step {α : Type} {es : List α} {s t : ChanSys α}
    (hs : ChanInv es s) (hst : ChanStep s t) : ChanInv es t := by
  obtain ⟨h1, h2, h3, h4, h5, h6⟩ := hs
  cases hst with
  | push e rest chan d f =>
    dsimp only at h1 h2 h3 h4 h5 h6
    have hf : f = false := by
      cases f
      · rfl
      · exact absurd (h2 rfl) (by simp)
    subst hf
    refine ⟨?_, by simp, ?_, by simp, by simp, by simp⟩
    · show d ++ evsOf (chan ++ [some e]) ++ rest = es
      rw [evsOf_append]
      simpa [evsOf, List.append_assoc] using h1
    · intro _
      show chan ++ [some e] = (evsOf (chan ++ [some e])).map some
      rw [evsOf_append]
      have hch := h3 rfl
      conv_lhs => rw [hch]
      simp [evsOf]
  | close chan d f =>
    dsimp only at h1 h2 h3 h4 h5 h6
    have hf : f = false := by
      cases f
      · rfl
      · exact absurd (h2 rfl) (by simp)
    subst hf
    refine ⟨?_, by simp, by simp, by simp, ?_, by simp⟩
    · show d ++ evsOf (chan ++ [none]) ++ [] = es
      rw [evsOf_append]
      simpa [evsOf] using h1
    · intro _ _
      show chan ++ [none] = (evsOf (chan ++ [none])).map some ++ [none]
      rw [evsOf_append]
      have hch := h3 rfl
      conv_lhs => rw [hch]
      simp [evsOf]
  | take tp e rest c d =>
    dsimp only at h1 h2 h3 h4 h5 h6
    have hevs : evsOf (some e :: rest) = e :: evsOf rest := by simp [evsOf]
    refine ⟨?_, by simp, ?_, ?_, ?_, by simp⟩
    · show (d ++ [e]) ++ evsOf rest ++ tp = es
      have h1' : d ++ evsOf (some e :: rest) ++ tp = es := h1
      rw [hevs] at h1'
      simpa [List.append_assoc] using h1'
    · intro hc
      show rest = (evsOf rest).map some
      have h3' : some e :: rest = (evsOf (some e :: rest)).map some := h3 hc
      rw [hevs] at h3'
      simpa using h3'
    · intro hc
      exact h4 hc
    · intro hc _
      show rest = (evsOf rest).map some ++ [none]
      have h5' : some e :: rest = (evsOf (some e :: rest)).map some ++ [none] := h5 hc rfl
      rw [hevs] at h5'
      simpa using h5'
  | takeEnd tp rest c d =>
    dsimp only at h1 h2 h3 h4 h5 h6
    have hc : c = true := by
      cases c
      · exfalso
        have h3' : none :: rest = (evsOf (none :: rest)).map some := h3 rfl
        rw [show evsOf (none :: rest) = evsOf rest from by simp [evsOf]] at h3'
        cases hv : evsOf rest with
        | nil => rw [hv] at h3'; simp at h3'
        | cons x xs => rw [hv] at h3'; simp at h3'
      · rfl
    subst hc
    have hshape : none :: rest = (evsOf (none :: rest)).map some ++ [none] := h5 rfl rfl
    rw [show evsOf (none :: rest) = evsOf rest from by simp [evsOf]] at hshape
    have hrest : rest = [] := by
      cases hv : evsOf rest with
      | nil =>
        rw [hv] at hshape
        simpa using hshape
      | cons x xs =>
        rw [hv] at hshape
        simp at hshape
    refine ⟨?_, by simp, ?_, ?_, by simp, ?_⟩
    · show d ++ evsOf rest ++ tp = es
      have h1' : d ++ evsOf (none :: rest) ++ tp = es := h1
      rw [show evsOf (none :: rest) = evsOf rest from by simp [evsOf]] at h1'
      exact h1'
    · intro hfalse
      exact absurd hfalse (by simp)
    · intro _
      exact h4 rfl
    · intro _
      exact hrest

theorem chanReach_inv {α : Type} {es : List α} {s : ChanSys α}
    (h : ChanReach es s) : ChanInv es s := by
  induction h with
  | init => exact chanInv_init es
  | step _ hs ih => exact chanInv_step ih hs

/-- C2: for a job whose producer emits the events `es` and finishes
normally, any single drain — interleaved in any way with the worker's pushes
(attach before, during, or after processing), and running before the channel
is torn down — that observes the end signal has yielded exactly `es`, in
producer order, with no reordering, duplication, loss, or coalescing, and
nothing is left behind in the channel. -/
theorem claim2_fifo_exact_delivery {α : Type} (es : List α) (s : ChanSys α)
    (h : ChanReach es s) (hf : s.finished = true) :
    s.drained = es ∧ s.chan = [] ∧ s.toPush = [] := by
  obtain ⟨h1, h2, h3, h4, h5, h6⟩ := chanReach_inv h
  have hchan := h6 hf
  have htp := h4 (h2 hf)
  refine ⟨?_, hchan, htp⟩
  rw [hchan, htp] at h1
  simpa [evsOf] using h1

/-- C2 witness: the producer emits two SSE chunks; the drain attaches
mid-processing (after the first push) and runs to the end signal. -/
theorem claim2_witness :
    (⟨[], [], true, [Chunk.errDict "e1", Chunk.errDict "e2"], true⟩ : ChanSys Chunk).drained
        = [Chunk.errDict "e1", Chunk.errDict "e2"] ∧
    (⟨[], [], true, [Chunk.errDict "e1", Chunk.errDict "e2"], true⟩ : ChanSys Chunk).chan = [] ∧
    (⟨[], [], true, [Chunk.errDict "e1", Chunk.errDict "e2"], true⟩ : ChanSys Chunk).toPush = [] :=
  claim2_fifo_exact_delivery [Chunk.errDict "e1", Chunk.errDict "e2"]
    ⟨[], [], true, [Chunk.errDict "e1", Chunk.errDict "e2"], true⟩
    (ChanReach.step
      (ChanReach.step
        (ChanReach.step
          (ChanReach.step
            (ChanReach.step
              (ChanReach.step ChanReach.init
                (ChanStep.push (Chunk.errDict "e1") [Chunk.errDict "e2"] [] [] false))
              (ChanStep.take [Chunk.errDict "e2"] (Chunk.errDict "e1") [] false []))
            (ChanStep.push (Chunk.errDict "e2") [] [] [Chunk.errDict "e1"] false))
          (ChanStep.close [some (Chunk.errDict "e2")] [Chunk.errDict "e1"] false))
        (ChanStep.take [] (Chunk.errDict "e2") [none] true [Chunk.errDict "e1"]))
      (ChanStep.takeEnd [] [] true [Chunk.errDict "e1", Chunk.errDict "e2"]))
    rfl

/-! ### Producer-output lemmas -/

theorem generate_streaming_response_raisesAfter (env : ProducerEnv) (message : String)
    (chunks : List String) (m : String) (hg : env.groq = .raisesAfter chunks m) :
    generate_streaming_response env message
      = (thinkingEvs ++ searchEvs env ++ genStartEvs
          ++ textEvents chunks ++ [backendErrorEv m], none) := by
  unfold generate_streaming_response
  rw [hg]

theorem thinkingEvs_tool_call :
    ∀ ev ∈ thinkingEvs, ev.1 = StreamEventType.tool_call := by
  intro ev h
  simp [thinkingEvs] at h
  rcases h with rfl | rfl <;> rfl

theorem searchEvs_tool_call (env : ProducerEnv) :
    ∀ ev ∈ searchEvs env, ev.1 = StreamEventType.tool_call := by
  intro ev h
  unfold searchEvs at h
  split at h
  · rcases List.mem_append.mp h with h2 | h2
    · simp at h2
      rcases h2 with rfl | rfl <;> rfl
    · split at h2
      · simp at h2
        rcases h2 with rfl | rfl <;> rfl
      · simp at h2
  · simp at h

theorem genStartEvs_tool_call :
    ∀ ev ∈ genStartEvs, ev.1 = StreamEventType.tool_call := by
  intro ev h
  simp [genStartEvs] at h
  rw [h]

theorem headEvs_tool_call (env : ProducerEnv) :
    ∀ ev ∈ thinkingEvs ++ searchEvs env ++ genStartEvs,
      ev.1 = StreamEventType.tool_call := by
  intro ev h
  rcases List.mem_append.mp h with h | h
  · rcases List.mem_append.mp h with h | h
    · exact thinkingEvs_tool_call ev h
    · exact searchEvs_tool_call env ev h
  · exact genStartEvs_tool_call ev h

theorem textEvents_text (cs : List String) :
    ∀ ev ∈ textEvents cs, ev.1 = StreamEventType.text := by
  intro ev h
  unfold textEvents at h
  rcases List.mem_map.mp h with ⟨c, _, rfl⟩
  rfl

theorem filter_text_of_head_and_text (env : ProducerEnv) (cs : List String) :
    ((thinkingEvs ++ searchEvs env ++ genStartEvs) ++ textEvents cs).filter
        (fun ev => ev.1 == StreamEventType.text) = textEvents cs := by
  rw [List.filter_append]
  have h1 : (thinkingEvs ++ searchEvs env ++ genStartEvs).filter
      (fun ev => ev.1 == StreamEventType.text) = [] := by
    rw [List.filter_eq_nil_iff]
    intro a ha
    have := headEvs_tool_call env a ha
    simp [this]
  have h2 : (textEvents cs).filter (fun ev => ev.1 == StreamEventType.text)
      = textEvents cs := by
    rw [List.filter_eq_self]
    intro a ha
    have := textEvents_text cs a ha
    simp [this]
  rw [h1, h2, List.nil_append]

theorem jobBodyRun_chunks_sse (env : ProducerEnv) (clock : Nat) (heap : Heap) (job : Job) :
    ∀ c ∈ (jobBodyRun env clock heap job).1, ∃ e, c = Chunk.sse e := by
  intro c hc
  simp only [jobBodyRun] at hc
  split at hc
  · split at hc
    · simp at hc
    · rcases List.mem_map.mp hc with ⟨ev, _, rfl⟩
      exact ⟨ev, rfl⟩
  · simp at hc

/-- `jobBodyRun` on a "chat" job whose history validates: the chunks are the
SSE framing of the producer's events and the exception is the producer's. -/
theorem jobBodyRun_chat (env : ProducerEnv) (clock : Nat) (heap : Heap) (job : Job)
    (hc : job.task_type = "chat") (hist : List ChatMessage)
    (hh : parseHistory (jobPayload heap job).history = .ok hist) :
    jobBodyRun env clock heap job
      = ((withTimestamps clock
            (generate_streaming_response env (jobPayload heap job).message).1).map Chunk.sse,
         (generate_streaming_response env (jobPayload heap job).message).2) := by
  simp only [jobBodyRun, hc, hh]
  rfl

/-! ### Claim C1: the generation backend raising mid-generation -/

/-- C1 counterexample.  Concrete input: a "chat" job whose Groq stream
delivers the delta "Hello, " and then raises "connection reset"
(mid-generation).  The producer catches the exception itself
(ai_service.py lines 234-239), yields one error event after the partial
text event, and returns normally, so the worker takes its success path:
the job's status afterwards is COMPLETED, not FAILED as the claim states,
and no error text is recorded on the job. -/
theorem claim1_counterexample :
    let env : ProducerEnv :=
      ⟨false, [], [], .raisesAfter ["Hello, "] "connection reset",
        fun _ => none, fun _ => "", fun _ => ""⟩
    let job : Job := ⟨"j1", "chat", 0, .queued, none, 0, none, none⟩
    let r := worker_process_job env 0 1 2 [(0, ⟨"hi", [], none⟩)] true job
    r.pushed.countP (fun u =>
      match u with
      | some (Chunk.sse e) => e.type == StreamEventType.error
      | some (Chunk.errDict _) => true
      | none => false) = 1 ∧
    r.pushed.countP (fun u =>
      match u with
      | some (Chunk.sse e) => e.type == StreamEventType.text
      | _ => false) = 1 ∧
    r.finalJob.status = .completed ∧
    r.finalJob.status ≠ .failed ∧
    r.finalJob.error = none := by
  exact ⟨rfl, rfl, rfl, by decide, rfl⟩

/-- C1 amended: if the generation backend raises mid-generation for a chat
job, the stream delivers the partial Text events already produced, then
exactly one Error event — the last event, with the non-empty message
"Failed to generate response" — and no Done event after (or anywhere near)
the Error; but the job's status afterwards is COMPLETED with no error text
recorded: the producer catches the backend failure itself (ai_service.py
lines 234-239) and returns normally, so the worker (queue_service.py line
105) never observes it.  (Only an exception escaping the producer generator
marks the job Failed; see C5/C7.) -/
theorem claim1_amended (env : ProducerEnv) (clock tS tE : Nat) (heap : Heap) (job : Job)
    (chunks : List String) (m : String) (hist : List ChatMessage)
    (hg : env.groq = .raisesAfter chunks m)
    (hc : job.task_type = "chat")
    (he : job.error = none)
    (hh : parseHistory (jobPayload heap job).history = .ok hist) :
    let p := generate_streaming_response env (jobPayload heap job).message
    let r := worker_process_job env clock tS tE heap true job
    p.2 = none ∧
    p.1 = (thinkingEvs ++ searchEvs env ++ genStartEvs ++ textEvents chunks)
      ++ [backendErrorEv m] ∧
    (∀ ev ∈ thinkingEvs ++ searchEvs env ++ genStartEvs ++ textEvents chunks,
      ev.1 ≠ StreamEventType.error ∧ ev.1 ≠ StreamEventType.done) ∧
    ((thinkingEvs ++ searchEvs env ++ genStartEvs) ++ textEvents chunks).filter
        (fun ev => ev.1 == StreamEventType.text) = textEvents chunks ∧
    (backendErrorEv m).1 = StreamEventType.error ∧
    ((backendErrorEv m).2.find? (fun kv => kv.1 == "message")).map (fun kv => kv.2)
        = some (Json.str "Failed to generate response") ∧
    ("Failed to generate response" : String) ≠ "" ∧
    r.finalJob.status = .completed ∧
    r.finalJob.error = none ∧
    r.pushed = ((withTimestamps clock p.1).map Chunk.sse).map some ++ [none] := by
  intro p r
  have hp : p = (thinkingEvs ++ searchEvs env ++ genStartEvs
      ++ textEvents chunks ++ [backendErrorEv m], none) :=
    generate_streaming_response_raisesAfter env (jobPayload heap job).message chunks m hg
  have hb := jobBodyRun_chat env clock heap job hc hist hh
  have hb2 : (jobBodyRun env clock heap job).2 = none := by
    rw [hb]
    show p.2 = none
    rw [hp]
  have hr : r = _ := worker_ok_chan env clock tS tE heap job hb2
  refine ⟨by rw [hp], by rw [hp], ?_, filter_text_of_head_and_text env chunks, rfl, rfl,
    by decide, by rw [hr], ?_, ?_⟩
  · intro ev hev
    rcases List.mem_append.mp hev with hev | hev
    · have := headEvs_tool_call env ev hev
      rw [this]
      exact ⟨by decide, by decide⟩
    · have := textEvents_text chunks ev hev
      rw [this]
      exact ⟨by decide, by decide⟩
  · rw [hr]
    exact he
  · rw [hr]
    show (jobBodyRun env clock heap job).1.map some ++ [none] = _
    rw [hb]

/-- C1 witness for the amended claim: backend delivers "Hello, " then raises
"connection reset"; the job's history is empty and validates. -/
theorem claim1_witness :
    (worker_process_job
      ⟨false, [], [], .raisesAfter ["Hello, "] "connection reset",
        fun _ => none, fun _ => "", fun _ => ""⟩ 0 1 2 [(0, ⟨"hi", [], none⟩)] true
      ⟨"j1", "chat", 0, .queued, none, 0, none, none⟩).finalJob.status = .completed ∧
    (worker_process_job
      ⟨false, [], [], .raisesAfter ["Hello, "] "connection reset",
        fun _ => none, fun _ => "", fun _ => ""⟩ 0 1 2 [(0, ⟨"hi", [], none⟩)] true
      ⟨"j1", "chat", 0, .queued, none, 0, none, none⟩).finalJob.error = none :=
  ⟨(claim1_amended
      ⟨false, [], [], .raisesAfter ["Hello, "] "connection reset",
        fun _ => none, fun _ => "", fun _ => ""⟩ 0 1 2 [(0, ⟨"hi", [], none⟩)]
      ⟨"j1", "chat", 0, .queued, none, 0, none, none⟩
      ["Hello, "] "connection reset" [] rfl rfl rfl rfl).2.2.2.2.2.2.2.1,
   (claim1_amended
      ⟨false, [], [], .raisesAfter ["Hello, "] "connection reset",
        fun _ => none, fun _ => "", fun _ => ""⟩ 0 1 2 [(0, ⟨"hi", [], none⟩)]
      ⟨"j1", "chat", 0, .queued, none, 0, none, none⟩
      ["Hello, "] "connection reset" [] rfl rfl rfl rfl).2.2.2.2.2.2.2.2.1⟩

/-! ### Claim C8: SSE framing of every delivered unit -/

/-- C8 counterexample.  The claim says every unit delivered on the stream
endpoint is one SSE-framed Event of JSON shape type/data/timestamp, on every
path including the worker's failure path and the unknown-job path.  Both
exceptional paths deliver something else: draining the unknown id "nope"
yields the not-found unit — the literal `data: \x7b'error': 'Job not
found'\x7d\n\n` whose body is a Python-repr dict, not the documented JSON
shape — and a worker failure pushes the raw dict
`\x7b'type': 'error', 'error': str(e)\x7d` with no SSE framing and no
`data`/`timestamp` keys, which the streaming generator forwards verbatim. -/
theorem claim8_counterexample :
    (get_result_stream [] "nope" = .unitsDone [.notFound] [] ∧
     DeliveredUnit.isSSE .notFound = false) ∧
    (some (Chunk.errDict "Unknown task type: bogus") ∈
        (worker_process_job
          ⟨false, [], [], .ok [], fun _ => none, fun _ => "", fun _ => ""⟩ 0 1 2 [] true
          ⟨"j", "bogus", 0, .queued, none, 0, none, none⟩).pushed ∧
     Chunk.isSSE (Chunk.errDict "Unknown task type: bogus") = false) := by
  refine ⟨⟨rfl, rfl⟩, ?_, rfl⟩
  show some (Chunk.errDict "Unknown task type: bogus")
      ∈ [some (Chunk.errDict "Unknown task type: bogus"), none]
  exact List.mem_cons_self _ _

/-- C8 amended: every unit the producer contributes to a job's channel is an
SSE-framed `StreamEvent` (shape type/data/timestamp by construction of
`_format_sse`); a completed job's channel holds only such units plus the end
signal; but on the worker's failure path the single extra unit before the
end signal is the raw error dict (whose text equals the job's recorded
error), not an SSE-framed event, and the unknown-job drain yields the
non-JSON not-found line. -/
theorem claim8_amended (env : ProducerEnv) (clock tS tE : Nat) (heap : Heap) (job : Job) :
    let r := worker_process_job env clock tS tE heap true job
    (∀ u ∈ r.pushed, u = none ∨ (∃ e, u = some (Chunk.sse e)) ∨
        (∃ em, u = some (Chunk.errDict em) ∧ r.finalJob.error = some em)) ∧
    (r.finalJob.status = .completed →
      ∀ u ∈ r.pushed, u = none ∨ ∃ e, u = some (Chunk.sse e)) := by
  intro r
  cases h : (jobBodyRun env clock heap job).2 with
  | none =>
    have hr : r = _ := worker_ok_chan env clock tS tE heap job h
    rw [hr]
    constructor
    · intro u hu
      rcases List.mem_append.mp hu with hu | hu
      · rcases List.mem_map.mp hu with ⟨ch, hch, rfl⟩
        rcases jobBodyRun_chunks_sse env clock heap job ch hch with ⟨e, rfl⟩
        exact Or.inr (Or.inl ⟨e, rfl⟩)
      · simp at hu
        exact Or.inl hu
    · intro _ u hu
      rcases List.mem_append.mp hu with hu | hu
      · rcases List.mem_map.mp hu with ⟨ch, hch, rfl⟩
        rcases jobBodyRun_chunks_sse env clock heap job ch hch with ⟨e, rfl⟩
        exact Or.inr ⟨e, rfl⟩
      · simp at hu
        exact Or.inl hu
  | some e =>
    have hr : r = _ := worker_err_chan env clock tS tE heap job e h
    rw [hr]
    constructor
    · intro u hu
      rcases List.mem_append.mp hu with hu | hu
      · rcases List.mem_map.mp hu with ⟨ch, hch, rfl⟩
        rcases jobBodyRun_chunks_sse env clock heap job ch hch with ⟨ev, rfl⟩
        exact Or.inr (Or.inl ⟨ev, rfl⟩)
      · simp at hu
        rcases hu with rfl | rfl
        · exact Or.inr (Or.inr ⟨e, rfl, rfl⟩)
        · exact Or.inl rfl
    · intro hst
      exact absurd hst (by simp)

theorem mem_of_head?_eq {α : Type} {l : List α} {a : α} (h : l.head? = some a) :
    a ∈ l := by
  cases l with
  | nil => cases h
  | cons x t =>
    have hx : x = a := by simpa using h
    rw [← hx]
    exact List.mem_cons_self x t

/-- C8 witness for the amended claim: a completed chat job with no pdfs and
two Groq deltas — its first channel unit (the thinking tool-call event, with
timestamp 0) is an SSE event, by the success-path clause instantiated at
that unit. -/
theorem claim8_witness :
    some (Chunk.sse ⟨StreamEventType.tool_call,
        toolCallData .thinking "in_progress" "Analyzing your question...", 0⟩) = none ∨
    ∃ e, some (Chunk.sse ⟨StreamEventType.tool_call,
        toolCallData .thinking "in_progress" "Analyzing your question...", 0⟩)
      = some (Chunk.sse e) := by
  have hhead : (worker_process_job
      ⟨false, [], [], .ok ["a", "b"], fun _ => none, fun _ => "", fun _ => ""⟩
      0 1 2 [(0, ⟨"hi", [], none⟩)] true
      ⟨"j", "chat", 0, .queued, none, 0, none, none⟩).pushed.head?
        = some (some (Chunk.sse ⟨StreamEventType.tool_call,
            toolCallData .thinking "in_progress" "Analyzing your question...", 0⟩)) := rfl
  exact (claim8_amended
    ⟨false, [], [], .ok ["a", "b"], fun _ => none, fun _ => "", fun _ => ""⟩
    0 1 2 [(0, ⟨"hi", [], none⟩)]
    ⟨"j", "chat", 0, .queued, none, 0, none, none⟩).2 rfl
    (some (Chunk.sse ⟨StreamEventType.tool_call,
        toolCallData .thinking "in_progress" "Analyzing your question...", 0⟩))
    (mem_of_head?_eq hhead)
